import Mathlib

/-!
Shallow embedding of `src/cmd/cli/cmd/datarepo.go`: the interactive
data-repo ingestion wizard. Prompting, schema sampling and YAML text
parsing are external collaborators (spec §6); they are modelled as oracle
records whose responses are arbitrary, and every call the wizard makes to
a collaborator is recorded in an event trace. Go errors are modelled by
their message string (`errors.New` / `fmt.Errorf` produce plain message
errors); fallible calls return `Except GoError α`.
-/

/-- A Go error, modelled as its message string (the source only ever
creates errors with `errors.New` / `fmt.Errorf` or propagates a
collaborator's error verbatim). -/
abbrev GoError := String

/-- The `selectPromptData` struct: a selectable option shown in a
single-choice prompt (name, machine value, human description). -/
structure selectPromptData where
  Name : String
  Value : String
  Description : String
deriving DecidableEq

/-- Modelled from the spec: the machine-value constant
`ingest.DataformatIDIndividualFiles` from the external `ingest` package
(the package is not under src/); the spec only requires each option to
carry a distinct machine value. -/
def DataformatIDIndividualFiles : String := "individual_files"

/-- Modelled from the spec: `ingest.DataformatIDCSVFiles`. -/
def DataformatIDCSVFiles : String := "csv_files"

/-- Modelled from the spec: `ingest.DataformatIDDatabaseTable`. -/
def DataformatIDDatabaseTable : String := "database_table"

/-- Modelled from the spec: `ingest.DatasourceIDLocalDirectory`. -/
def DatasourceIDLocalDirectory : String := "local_directory"

/-- Modelled from the spec: `ingest.DatasourceIDAWSS3`. -/
def DatasourceIDAWSS3 : String := "aws_s3"

/-- Modelled from the spec: `ingest.CSVDelimiterCommas`. -/
def CSVDelimiterCommas : String := ","

/-- Modelled from the spec: `ingest.CSVDelimiterTabs`. -/
def CSVDelimiterTabs : String := "\t"

def IndividualBinaryFilesSelector : selectPromptData :=
  { Name := "Files (WIP)"
    Value := DataformatIDIndividualFiles
    Description := "Individual files on disk or in object storage." }

def CommaSeparatedValuesFilesSelector : selectPromptData :=
  { Name := "CSV Files"
    Value := DataformatIDCSVFiles
    Description := "Comma-separated value files on disk or in object storage. Other delimiters such as tabs are also supported." }

def DatabaseTableSelector : selectPromptData :=
  { Name := "Database Table (WIP)"
    Value := DataformatIDDatabaseTable
    Description := "A database table from databases such as PostgreSQL, Snowflake or BigQuery." }

def LocalDirectorySelector : selectPromptData :=
  { Name := "Local Directory (WIP)"
    Value := DatasourceIDLocalDirectory
    Description := "A directory on your current machine's local filesystem." }

def AWSS3Selector : selectPromptData :=
  { Name := "AWS S3"
    Value := DatasourceIDAWSS3
    Description := "An AWS S3 Bucket and prefix, indicating a collection of AWS S3 objects." }

def CommasSelector : selectPromptData :=
  { Name := "Commas: ,"
    Value := CSVDelimiterCommas
    Description := "The most common type of delimiter in CSV files." }

def TabsSelector : selectPromptData :=
  { Name := "Tabs: \\t"
    Value := CSVDelimiterTabs
    Description := "Values in each column are separated by a tab." }

def locationSelectors : List selectPromptData :=
  [AWSS3Selector, LocalDirectorySelector]

/-- The Choice Compatibility Table `allowedSelectors` as the association
list of the Go map literal. -/
def allowedSelectorsTable : List (String × List selectPromptData) :=
  [(AWSS3Selector.Value, [CommaSeparatedValuesFilesSelector, IndividualBinaryFilesSelector]),
   (LocalDirectorySelector.Value, [CommaSeparatedValuesFilesSelector, IndividualBinaryFilesSelector])]

/-- Go map indexing `allowedSelectors[k]`: the zero value (the empty
slice) when the key is absent. -/
def allowedSelectors (locationValue : String) : List selectPromptData :=
  (allowedSelectorsTable.lookup locationValue).getD []

def csvDelimiterSelectors : List selectPromptData :=
  [CommasSelector, TabsSelector]

/-- `ingest.CSVFilesFormatConfig` (fields as used by the wizard; the
struct lives in the external `ingest` package). -/
structure CSVFilesFormatConfig where
  Delimiter : String
  Header : Bool
deriving DecidableEq

/-- `ingest.AWSS3LocationConfig` (fields as used by the wizard). -/
structure AWSS3LocationConfig where
  Bucket : String
  Prefix : String
deriving DecidableEq

/-- The `ingest.ManifestConfig` interface value held by the manifest:
either Go's nil interface (the zero value of the field) or a pointer to
one of the concrete config structs the wizard builds. -/
inductive ManifestConfig where
  | nil
  | csv (c : CSVFilesFormatConfig)
  | awsS3 (c : AWSS3LocationConfig)
deriving DecidableEq

/-- The `IngestManifest` struct, fields in source order. The two
`selected…` fields are unexported (lower-case) in Go; the two config
fields carry yaml tags `datasourceType` and `datasourceLocation`. -/
structure IngestManifest where
  selectedDatasourceType : selectPromptData
  DatasourceFormatConfig : ManifestConfig
  selectedDatasourceLocation : selectPromptData
  DatasourceLocationConfig : ManifestConfig
deriving DecidableEq

/-- The zero value of `selectPromptData` (`var` / fresh struct in Go). -/
def zeroSelectPromptData : selectPromptData :=
  { Name := "", Value := "", Description := "" }

/-- The zero value `var manifest IngestManifest` the driver starts from. -/
def zeroIngestManifest : IngestManifest :=
  { selectedDatasourceType := zeroSelectPromptData
    DatasourceFormatConfig := .nil
    selectedDatasourceLocation := zeroSelectPromptData
    DatasourceLocationConfig := .nil }

/-- Go `fmt` default formatting of a `selectPromptData` value under `%s`:
the fields between braces, space-separated (used by the two
`fmt.Errorf("… %s not supported", …)` calls). -/
def selectPromptDataGoString (d : selectPromptData) : String :=
  "\x7b" ++ d.Name ++ " " ++ d.Value ++ " " ++ d.Description ++ "\x7d"

/-- A YAML document value, as far as the wizard's shapes need: the
`gopkg.in/yaml.v3` library itself is an external collaborator; this type
models the structured document its struct encoder produces. -/
inductive YamlVal where
  | null
  | str (s : String)
  | bool (b : Bool)
  | map (entries : List (String × YamlVal))

/-- Flow-style rendering of a `YamlVal` to text, with fuel (every value
the wizard renders has depth at most 2). Used only to build the text
handed to the editor prompt and to the console. -/
def renderYamlFuel : Nat → YamlVal → String
  | 0, _ => ""
  | _ + 1, .null => "null"
  | _ + 1, .str s => s
  | _ + 1, .bool b => if b then "true" else "false"
  | n + 1, .map entries =>
      "\x7b" ++ String.intercalate ", "
        (entries.map fun e => e.1 ++ ": " ++ renderYamlFuel n e.2) ++ "\x7d"

def renderYaml (y : YamlVal) : String := renderYamlFuel 8 y

/-- Modelled from the spec and yaml.v3's documented struct encoding (the
library is not under src/): a concrete config struct marshals to a
mapping of its exported fields under their lower-cased names; a nil
interface marshals to null. -/
def marshalManifestConfig : ManifestConfig → YamlVal
  | .nil => .null
  | .csv c => .map [("delimiter", .str c.Delimiter), ("header", .bool c.Header)]
  | .awsS3 c => .map [("bucket", .str c.Bucket), ("prefix", .str c.Prefix)]

/-- `yaml.Marshal` of an `IngestManifest`: only the two exported config
fields appear, under their yaml tags, in struct field order; the
unexported `selectedDatasourceType` and `selectedDatasourceLocation`
fields are skipped by the yaml encoder. -/
def marshalIngestManifest (m : IngestManifest) : YamlVal :=
  .map [("datasourceType", marshalManifestConfig m.DatasourceFormatConfig),
        ("datasourceLocation", marshalManifestConfig m.DatasourceLocationConfig)]

/-- Modelled from the spec: a best-case decoder for a `ManifestConfig`
mapping (Go cannot actually decode into the non-empty `ManifestConfig`
interface; this model generously reconstructs whichever concrete config
struct matches the keys, so the round-trip result is an upper bound on
what any decoder could recover). -/
def unmarshalManifestConfig (y : YamlVal) : ManifestConfig :=
  match y with
  | .map entries =>
      match entries.lookup "delimiter", entries.lookup "header",
            entries.lookup "bucket", entries.lookup "prefix" with
      | some (.str d), some (.bool h), _, _ => .csv { Delimiter := d, Header := h }
      | _, _, some (.str b), some (.str p) => .awsS3 { Bucket := b, Prefix := p }
      | _, _, _, _ => .nil
  | _ => .nil

/-- `yaml.Unmarshal` of a manifest document into a fresh `IngestManifest`:
decodes the two tagged exported fields (best case, see
`unmarshalManifestConfig`); the unexported `selected…` fields are never
set by the yaml decoder and stay at their zero values. -/
def unmarshalIngestManifest (y : YamlVal) : IngestManifest :=
  match y with
  | .map entries =>
      { selectedDatasourceType := zeroSelectPromptData
        DatasourceFormatConfig :=
          match entries.lookup "datasourceType" with
          | some v => unmarshalManifestConfig v
          | none => .nil
        selectedDatasourceLocation := zeroSelectPromptData
        DatasourceLocationConfig :=
          match entries.lookup "datasourceLocation" with
          | some v => unmarshalManifestConfig v
          | none => .nil }
  | _ => zeroIngestManifest

/-- Modelled from the spec: the schema record type `schema.SchemaField`
of the external `schema` package (not under src/); the spec describes the
sampled schema as a record of named, typed fields rendered to YAML. -/
structure SchemaField where
  name : String
  fieldType : String
deriving DecidableEq

/-- `yaml.Marshal` of a `SchemaField` (modelled from the spec, as for
`marshalManifestConfig`). -/
def marshalSchemaField (s : SchemaField) : YamlVal :=
  .map [("name", .str s.name), ("fieldType", .str s.fieldType)]

/-- Decoding a `SchemaField` from a YAML document (modelled from the
spec): a mapping decodes field-wise, absent keys leave zero values,
anything that is not a mapping is a type error. -/
def unmarshalSchemaFieldYaml : YamlVal → Except GoError SchemaField
  | .map entries =>
      match entries.lookup "name", entries.lookup "fieldType" with
      | some (.str n), some (.str t) => .ok { name := n, fieldType := t }
      | _, _ => .error "yaml: cannot decode schema field"
  | _ => .error "yaml: cannot unmarshal into SchemaField"

/-- One call the wizard makes to an external collaborator (prompt engine,
sampler, console), recorded in order in a trace. -/
inductive Event where
  | selectPromptCall (title help : String) (options : List selectPromptData)
  | boolPromptCall (question : String)
  | textPromptCall (label : String)
  | editorPromptCall (initialText syntaxHint : String)
  | samplerFactoryCall (formatConfig locationConfig : ManifestConfig)
  | sampleSchemaCall
  | previewSamplesCall
  | printLine (s : String)

/-- Whether an event is a call into the sampling collaborator. -/
def Event.isSamplerCall : Event → Bool
  | .samplerFactoryCall _ _ => true
  | .sampleSchemaCall => true
  | .previewSamplesCall => true
  | _ => false

/-- Whether an event is the yes/no prompt with the given question. -/
def Event.isBoolPromptFor (question : String) : Event → Bool
  | .boolPromptCall q => q == question
  | _ => false

/-- Whether an event is a full-screen editor prompt. -/
def Event.isEditorCall : Event → Bool
  | .editorPromptCall _ _ => true
  | _ => false

/-- The prompt engine (spec §6): each primitive may return an error, which
the wizard propagates verbatim. Responses may depend on the prompt's
arguments; within one wizard run every prompt label is used at most once,
so a response function loses no generality. -/
structure PromptOracle where
  SelectPrompt : String → String → List selectPromptData → Except GoError selectPromptData
  BoolPrompt : String → Except GoError Bool
  TextPrompt : String → Except GoError String
  EditorPrompt : String → String → Except GoError String

/-- The sampling collaborator (spec §6): `sample.SamplerFactory`, the
sampler's `SampleSchema`, and `PreviewSamples`. -/
structure SamplerOracle where
  SamplerFactory : ManifestConfig → ManifestConfig → Except GoError Unit
  SampleSchema : Except GoError SchemaField
  PreviewSamples : SchemaField → Except GoError String

/-- The text-level YAML decoder applied to the user-edited editor buffer
(`yaml.Unmarshal` on a raw string; the yaml library is an external
collaborator, so its parse of arbitrary edited text is an oracle). -/
structure YamlTextDecoder where
  UnmarshalSchemaField : String → Except GoError SchemaField

/-- The `SchemaEditorTutorialBlurb` string constant. -/
def SchemaEditorTutorialBlurb : String :=
  "# This editor lets you make manual modifications to your field types to help Daft ingest your data.\n#\n# Daft types and what they mean:\n#\n#     \"string\": A simple string\n#     \"uri/s3\": A URL to S3 that starts with s3://...\n#     \"uri/http\": A URL to a HTTP resource that can be retrieved with a GET request\n#\n\n\n"

/-- `NewCSVFilesFormatConfigFromPrompts`: delimiter select prompt, then
header bool prompt, assembling an `ingest.CSVFilesFormatConfig`. -/
def NewCSVFilesFormatConfigFromPrompts (o : PromptOracle) :
    Except GoError CSVFilesFormatConfig × List Event :=
  let ev1 := Event.selectPromptCall "Delimiter"
    "Columns in each file are delimited by this character" csvDelimiterSelectors
  match o.SelectPrompt "Delimiter"
      "Columns in each file are delimited by this character" csvDelimiterSelectors with
  | .error err => (.error err, [ev1])
  | .ok result =>
      match o.BoolPrompt "CSV files contain header row" with
      | .error err => (.error err, [ev1, .boolPromptCall "CSV files contain header row"])
      | .ok headerResult =>
          (.ok { Delimiter := result.Value, Header := headerResult },
           [ev1, .boolPromptCall "CSV files contain header row"])

/-- `NewAWSS3LocationConfigFromPrompts`: bucket then prefix text prompts,
assembling an `ingest.AWSS3LocationConfig`. -/
def NewAWSS3LocationConfigFromPrompts (o : PromptOracle) :
    Except GoError AWSS3LocationConfig × List Event :=
  match o.TextPrompt "AWS S3 Bucket" with
  | .error err => (.error err, [.textPromptCall "AWS S3 Bucket"])
  | .ok bucket =>
      match o.TextPrompt "AWS S3 Prefix" with
      | .error err => (.error err, [.textPromptCall "AWS S3 Bucket", .textPromptCall "AWS S3 Prefix"])
      | .ok pfx =>
          (.ok { Bucket := bucket, Prefix := pfx },
           [.textPromptCall "AWS S3 Bucket", .textPromptCall "AWS S3 Prefix"])

/-- `(manifest *IngestManifest) buildDatasourceFormatConfig`: looks the
location's value up in `allowedSelectors` (empty slice when absent),
prompts for the format among those selectors, then switches on the chosen
option's `Value`; only the CSV branch assigns the manifest's
`selectedDatasourceType` and `DatasourceFormatConfig` fields. Returns the
Go error result, the (possibly updated) manifest, and the trace. -/
def buildDatasourceFormatConfig (o : PromptOracle) (manifest : IngestManifest) :
    (Except GoError Unit × IngestManifest) × List Event :=
  let selectors := allowedSelectors manifest.selectedDatasourceLocation.Value
  let ev0 := Event.selectPromptCall "Data format" "Choose how your data is laid out." selectors
  match o.SelectPrompt "Data format" "Choose how your data is laid out." selectors with
  | .error err => ((.error err, manifest), [ev0])
  | .ok result =>
      if result.Value = IndividualBinaryFilesSelector.Value then
        ((.error "individual binary files not yet supported", manifest), [ev0])
      else if result.Value = CommaSeparatedValuesFilesSelector.Value then
        match NewCSVFilesFormatConfigFromPrompts o with
        | (.error err, tr) => ((.error err, manifest), ev0 :: tr)
        | (.ok config, tr) =>
            ((.ok (), { manifest with
                selectedDatasourceType := result
                DatasourceFormatConfig := .csv config }), ev0 :: tr)
      else if result.Value = DatabaseTableSelector.Value then
        ((.error "database tables not yet supported", manifest), [ev0])
      else
        ((.error ("datasource type " ++ selectPromptDataGoString result ++ " not supported"),
          manifest), [ev0])

/-- `buildDatasourceLocationConfigForSelectedLocation`: the Go `switch`
here compares the whole `selectPromptData` struct (`switch location` with
struct cases), not just its `Value` field. -/
def buildDatasourceLocationConfigForSelectedLocation (o : PromptOracle)
    (location : selectPromptData) : Except GoError ManifestConfig × List Event :=
  if location = LocalDirectorySelector then
    (.error "local directories not yet supported", [])
  else if location = AWSS3Selector then
    match NewAWSS3LocationConfigFromPrompts o with
    | (.error err, tr) => (.error err, tr)
    | (.ok config, tr) => (.ok (.awsS3 config), tr)
  else
    (.error ("datasource location " ++ selectPromptDataGoString location ++ " not supported"), [])

/-- `(manifest *IngestManifest) buildDatasourceLocationConfig`: location
select prompt, then the per-location dispatch; only on success assigns
`selectedDatasourceLocation` and `DatasourceLocationConfig`. -/
def buildDatasourceLocationConfig (o : PromptOracle) (manifest : IngestManifest) :
    (Except GoError Unit × IngestManifest) × List Event :=
  let ev0 := Event.selectPromptCall "Data Source"
    "Specify the source for importing data from." locationSelectors
  match o.SelectPrompt "Data Source" "Specify the source for importing data from."
      locationSelectors with
  | .error err => ((.error err, manifest), [ev0])
  | .ok result =>
      match buildDatasourceLocationConfigForSelectedLocation o result with
      | (.error err, tr) => ((.error err, manifest), ev0 :: tr)
      | (.ok config, tr) =>
          ((.ok (), { manifest with
              selectedDatasourceLocation := result
              DatasourceLocationConfig := config }), ev0 :: tr)

/-- `(manifest *IngestManifest) confirmDatasourceConfigs`: prints the
YAML-marshalled manifest, asks "Confirm and detect schema"; a negative
answer is the `errors.New("user cancelled data source configurations")`
error. The manifest is never written to. -/
def confirmDatasourceConfigs (o : PromptOracle) (manifest : IngestManifest) :
    (Except GoError Unit × IngestManifest) × List Event :=
  let evs := [Event.printLine "Data Source Configurations:", Event.printLine "",
              Event.printLine (renderYaml (marshalIngestManifest manifest)),
              Event.boolPromptCall "Confirm and detect schema"]
  match o.BoolPrompt "Confirm and detect schema" with
  | .error err => ((.error err, manifest), evs)
  | .ok result =>
      if !result then
        ((.error "user cancelled data source configurations", manifest), evs)
      else
        ((.ok (), manifest), evs)

/-- `(manifest *IngestManifest) buildDatarepoSchema`: sampler factory,
schema sampling, preview, editor prompt seeded with blurb + preview +
YAML schema, parse of the edited text, final display and confirmation; a
negative final answer is `errors.New("aborted finalizing schema")`. The
parsed record is bound and never used; the manifest is never written. -/
def buildDatarepoSchema (o : PromptOracle) (so : SamplerOracle) (yd : YamlTextDecoder)
    (manifest : IngestManifest) : (Except GoError Unit × IngestManifest) × List Event :=
  let ev0 := Event.samplerFactoryCall manifest.DatasourceFormatConfig
    manifest.DatasourceLocationConfig
  match so.SamplerFactory manifest.DatasourceFormatConfig manifest.DatasourceLocationConfig with
  | .error err => ((.error err, manifest), [ev0])
  | .ok _ =>
      match so.SampleSchema with
      | .error err => ((.error err, manifest), [ev0, .sampleSchemaCall])
      | .ok sampledSchema =>
          match so.PreviewSamples sampledSchema with
          | .error err => ((.error err, manifest), [ev0, .sampleSchemaCall, .previewSamplesCall])
          | .ok tablePreview =>
              let yamlSchema := renderYaml (marshalSchemaField sampledSchema)
              let initialText := SchemaEditorTutorialBlurb ++ tablePreview ++ yamlSchema
              let evs := [ev0, Event.sampleSchemaCall, Event.previewSamplesCall,
                          Event.editorPromptCall initialText "yaml"]
              match o.EditorPrompt initialText "yaml" with
              | .error err => ((.error err, manifest), evs)
              | .ok finalizedSchemaStr =>
                  match yd.UnmarshalSchemaField finalizedSchemaStr with
                  | .error err => ((.error err, manifest), evs)
                  | .ok _ =>
                      let evs2 := evs ++ [Event.printLine "Final Schema:",
                        Event.printLine finalizedSchemaStr,
                        Event.boolPromptCall "Confirm finalized schema"]
                      match o.BoolPrompt "Confirm finalized schema" with
                      | .error err => ((.error err, manifest), evs2)
                      | .ok confirmSchema =>
                          if !confirmSchema then
                            ((.error "aborted finalizing schema", manifest), evs2)
                          else
                            ((.ok (), manifest), evs2)

/-- Outcome of the `ingest` command's `Run`: either all steps completed,
or `cobra.CheckErr` terminated the process with the first error. -/
inductive RunOutcome where
  | completed (manifest : IngestManifest)
  | exited (err : GoError)
deriving DecidableEq

/-- `ingestCmd.Run`: a fresh zero manifest, then the four steps in order,
each guarded by `cobra.CheckErr` (terminate on the first error,
propagated unchanged). -/
def ingestCmdRun (o : PromptOracle) (so : SamplerOracle) (yd : YamlTextDecoder) :
    RunOutcome × List Event :=
  let pr := [Event.printLine ""]
  match buildDatasourceLocationConfig o zeroIngestManifest with
  | ((.error err, _), tr1) => (.exited err, pr ++ tr1)
  | ((.ok _, m1), tr1) =>
      match buildDatasourceFormatConfig o m1 with
      | ((.error err, _), tr2) => (.exited err, pr ++ tr1 ++ tr2)
      | ((.ok _, m2), tr2) =>
          match confirmDatasourceConfigs o m2 with
          | ((.error err, _), tr3) => (.exited err, pr ++ tr1 ++ tr2 ++ tr3)
          | ((.ok _, m3), tr3) =>
              match buildDatarepoSchema o so yd m3 with
              | ((.error err, _), tr4) => (.exited err, pr ++ tr1 ++ tr2 ++ tr3 ++ tr4)
              | ((.ok _, m4), tr4) => (.completed m4, pr ++ tr1 ++ tr2 ++ tr3 ++ tr4)

/-- A prompt oracle that answers every prompt the happy-path way:
location AWS S3, format CSV, commas, header yes, bucket and prefix text,
every confirmation yes, and a well-formed edited schema. -/
def happyPromptOracle : PromptOracle where
  SelectPrompt := fun title _ _ =>
    if title = "Data Source" then .ok AWSS3Selector
    else if title = "Data format" then .ok CommaSeparatedValuesFilesSelector
    else if title = "Delimiter" then .ok CommasSelector
    else .error "unexpected select prompt"
  BoolPrompt := fun _ => .ok true
  TextPrompt := fun label =>
    if label = "AWS S3 Bucket" then .ok "my-bucket" else .ok "data/"
  EditorPrompt := fun _ _ => .ok "name: id\nfieldType: string"

/-- `happyPromptOracle` except that the named yes/no question is answered
"no". -/
def answerNoAt (question : String) : PromptOracle :=
  { happyPromptOracle with
    BoolPrompt := fun q => if q = question then .ok false else .ok true }

/-- An oracle identical to `o` except that the "Data format" select
prompt returns the given option (used to compare two runs that differ
only in the chosen format option). -/
def withFormatChoice (o : PromptOracle) (r : selectPromptData) : PromptOracle :=
  { o with
    SelectPrompt := fun title help opts =>
      if title = "Data format" then .ok r else o.SelectPrompt title help opts }

/-- A sampling collaborator that succeeds with a one-field schema. -/
def happySamplerOracle : SamplerOracle where
  SamplerFactory := fun _ _ => .ok ()
  SampleSchema := .ok { name := "id", fieldType := "string" }
  PreviewSamples := fun _ => .ok "| id |\n"

/-- A text decoder that parses every buffer to the same schema record. -/
def happyDecoder : YamlTextDecoder where
  UnmarshalSchemaField := fun _ => .ok { name := "id", fieldType := "string" }

/-- A text decoder that rejects every buffer with a parse error. -/
def failingDecoder : YamlTextDecoder where
  UnmarshalSchemaField := fun _ => .error "yaml: could not find expected directive name"

/-- The format-selection step always begins by invoking the select
prompt, and the options it passes are exactly the compatibility-table
lookup for the previously chosen location's value. -/
theorem buildDatasourceFormatConfig_trace_head (o : PromptOracle) (m : IngestManifest) :
    (buildDatasourceFormatConfig o m).2.head? =
      some (.selectPromptCall "Data format" "Choose how your data is laid out."
        (allowedSelectors m.selectedDatasourceLocation.Value)) := by
  unfold buildDatasourceFormatConfig
  try dsimp only []
  repeat' (first | rfl | split)

/-- The format-selection step either leaves the manifest untouched or
returns success. -/
theorem buildDatasourceFormatConfig_frame_or_ok (o : PromptOracle) (m : IngestManifest) :
    (buildDatasourceFormatConfig o m).1.2 = m ∨
      (buildDatasourceFormatConfig o m).1.1 = .ok () := by
  unfold buildDatasourceFormatConfig
  try dsimp only []
  repeat' (first | (left ; rfl) | (right ; rfl) | split)

/-- The location-selection step either leaves the manifest untouched or
returns success. -/
theorem buildDatasourceLocationConfig_frame_or_ok (o : PromptOracle) (m : IngestManifest) :
    (buildDatasourceLocationConfig o m).1.2 = m ∨
      (buildDatasourceLocationConfig o m).1.1 = .ok () := by
  unfold buildDatasourceLocationConfig
  try dsimp only []
  repeat' (first | (left ; rfl) | (right ; rfl) | split)

/-- The CSV config builder only calls prompt primitives. -/
theorem NewCSVFilesFormatConfigFromPrompts_no_sampler (o : PromptOracle) :
    (NewCSVFilesFormatConfigFromPrompts o).2.all (fun e => !e.isSamplerCall) = true := by
  unfold NewCSVFilesFormatConfigFromPrompts
  try dsimp only []
  repeat' (first | rfl | split)

/-- The S3 location config builder only calls prompt primitives. -/
theorem NewAWSS3LocationConfigFromPrompts_no_sampler (o : PromptOracle) :
    (NewAWSS3LocationConfigFromPrompts o).2.all (fun e => !e.isSamplerCall) = true := by
  unfold NewAWSS3LocationConfigFromPrompts
  try dsimp only []
  repeat' (first | rfl | split)

/-- The per-location dispatch never calls the sampling collaborator. -/
theorem locationDispatch_no_sampler (o : PromptOracle) (location : selectPromptData) :
    (buildDatasourceLocationConfigForSelectedLocation o location).2.all
      (fun e => !e.isSamplerCall) = true := by
  have hs3 := NewAWSS3LocationConfigFromPrompts_no_sampler o
  unfold buildDatasourceLocationConfigForSelectedLocation
  try dsimp only []
  split
  · rfl
  · split
    · split
      · rename_i err tr heq
        rw [heq] at hs3
        simpa using hs3
      · rename_i cfg tr heq
        rw [heq] at hs3
        simpa using hs3
    · rfl

/-- The location-selection step never calls the sampling collaborator. -/
theorem buildDatasourceLocationConfig_no_sampler (o : PromptOracle) (m : IngestManifest) :
    (buildDatasourceLocationConfig o m).2.all (fun e => !e.isSamplerCall) = true := by
  unfold buildDatasourceLocationConfig
  try dsimp only []
  split
  · rfl
  · rename_i result heq0
    have hd := locationDispatch_no_sampler o result
    split
    · rename_i err tr heq
      rw [heq] at hd
      simpa [Event.isSamplerCall] using hd
    · rename_i cfg tr heq
      rw [heq] at hd
      simpa [Event.isSamplerCall] using hd

/-- The format-selection step never calls the sampling collaborator. -/
theorem buildDatasourceFormatConfig_no_sampler (o : PromptOracle) (m : IngestManifest) :
    (buildDatasourceFormatConfig o m).2.all (fun e => !e.isSamplerCall) = true := by
  have hcsv := NewCSVFilesFormatConfigFromPrompts_no_sampler o
  unfold buildDatasourceFormatConfig
  try dsimp only []
  split
  · rfl
  · split
    · rfl
    · split
      · split
        · rename_i err tr heq
          rw [heq] at hcsv
          simpa [Event.isSamplerCall] using hcsv
        · rename_i cfg tr heq
          rw [heq] at hcsv
          simpa [Event.isSamplerCall] using hcsv
      · split
        · rfl
        · rfl

/-- The confirmation step never calls the sampling collaborator. -/
theorem confirmDatasourceConfigs_no_sampler (o : PromptOracle) (m : IngestManifest) :
    (confirmDatasourceConfigs o m).2.all (fun e => !e.isSamplerCall) = true := by
  unfold confirmDatasourceConfigs
  try dsimp only []
  repeat' (first | rfl | split)

/-- C1: claimed that a missing Choice Compatibility Table entry makes the
format-selection step fail with a fatal error at the lookup. In the code
the Go map lookup yields the zero value (an empty slice) and the step
proceeds to invoke the format prompt with that empty option list; no
error is raised at the lookup itself. This theorem proves the amended
behaviour: for every location value absent from the table, the step still
begins by calling the select prompt, passing the empty option list. -/
theorem C1_theorem (o : PromptOracle) (m : IngestManifest)
    (h : allowedSelectorsTable.lookup m.selectedDatasourceLocation.Value = none) :
    (buildDatasourceFormatConfig o m).2.head? =
      some (.selectPromptCall "Data format" "Choose how your data is laid out." []) := by
  have ht := buildDatasourceFormatConfig_trace_head o m
  rw [ht]
  unfold allowedSelectors
  rw [h]
  rfl

/-- C1 witness: at the concrete absent location value "bogus" the
hypothesis holds and the step prompts with the empty list. -/
theorem C1_witness :
    allowedSelectorsTable.lookup "bogus" = none ∧
    (buildDatasourceFormatConfig happyPromptOracle
      { zeroIngestManifest with selectedDatasourceLocation :=
          { Name := "Bogus", Value := "bogus", Description := "" } }).2.head? =
      some (.selectPromptCall "Data format" "Choose how your data is laid out." []) :=
  ⟨by decide, C1_theorem happyPromptOracle _ (by decide)⟩

/-- C1 counterexample to the claim as stated: with the location value
"bogus", absent from the table, the format-selection step does not fail
at the lookup — with an oracle that answers the prompts it returns
success. -/
theorem C1_counterexample :
    allowedSelectorsTable.lookup "bogus" = none ∧
    (buildDatasourceFormatConfig happyPromptOracle
      { zeroIngestManifest with selectedDatasourceLocation :=
          { Name := "Bogus", Value := "bogus", Description := "" } }).1.1 = .ok () := by
  constructor
  · decide
  · rfl

/-- C2: claimed `parse(serialize(x)) == x` for every manifest the config
builders can produce. This fails: the yaml encoder skips the unexported
`selectedDatasourceType` and `selectedDatasourceLocation` fields, so a
decode of the marshalled document can only restore the two exported
config fields and leaves the selected options at their zero values.
Amended and proved here: for every manifest of the shape the builders
produce (a CSV format config and an AWS S3 location config), the round
trip restores both config fields exactly, and resets the two unexported
selected-option fields to zero values; and a schema record round-trips
exactly. -/
theorem C2_theorem :
    (∀ (st sl : selectPromptData) (c : CSVFilesFormatConfig) (a : AWSS3LocationConfig),
      unmarshalIngestManifest (marshalIngestManifest
        { selectedDatasourceType := st
          DatasourceFormatConfig := .csv c
          selectedDatasourceLocation := sl
          DatasourceLocationConfig := .awsS3 a }) =
      { selectedDatasourceType := zeroSelectPromptData
        DatasourceFormatConfig := .csv c
        selectedDatasourceLocation := zeroSelectPromptData
        DatasourceLocationConfig := .awsS3 a }) ∧
    (∀ s : SchemaField, unmarshalSchemaFieldYaml (marshalSchemaField s) = .ok s) := by
  constructor
  · intro st sl c a
    rfl
  · intro s
    rfl

/-- C2 counterexample to the claim as stated: the concrete manifest the
builders produce on the happy path (location AWS S3, bucket "my-bucket",
prefix "data/", format CSV with comma delimiter and a header row) does
not survive the round trip: the decoded manifest's selected-option
fields are zero, not the chosen options. -/
theorem C2_counterexample :
    ((buildDatasourceLocationConfig happyPromptOracle zeroIngestManifest).1.1 = .ok ()) ∧
    ((buildDatasourceFormatConfig happyPromptOracle
        (buildDatasourceLocationConfig happyPromptOracle zeroIngestManifest).1.2).1.1 = .ok ()) ∧
    unmarshalIngestManifest (marshalIngestManifest
        (buildDatasourceFormatConfig happyPromptOracle
          (buildDatasourceLocationConfig happyPromptOracle zeroIngestManifest).1.2).1.2) ≠
      (buildDatasourceFormatConfig happyPromptOracle
        (buildDatasourceLocationConfig happyPromptOracle zeroIngestManifest).1.2).1.2 := by
  refine ⟨rfl, rfl, ?_⟩
  decide

/-- The modified oracle answers the "Data format" prompt with the fixed
option. -/
theorem withFormatChoice_select (o : PromptOracle) (r : selectPromptData)
    (help : String) (opts : List selectPromptData) :
    (withFormatChoice o r).SelectPrompt "Data format" help opts = .ok r := by
  unfold withFormatChoice
  simp

/-- Pinning the "Data format" answer leaves the CSV builder's prompts
(different labels) unchanged. -/
theorem NewCSV_withFormatChoice (o : PromptOracle) (r : selectPromptData) :
    NewCSVFilesFormatConfigFromPrompts (withFormatChoice o r) =
      NewCSVFilesFormatConfigFromPrompts o := by
  unfold NewCSVFilesFormatConfigFromPrompts withFormatChoice
  simp

/-- C3: claimed that every branching step, the location-config dispatch
included, branches only on the chosen option's `value`. The
format-selection switch does branch only on `Value` — proved here: two
chosen options with equal `Value` give the same success status, the same
stored format config and the same collaborator trace — but the
location-config dispatch compares the whole struct (see the
counterexample), so the claim is amended to exclude it. -/
theorem C3_theorem (o : PromptOracle) (m : IngestManifest) (r1 r2 : selectPromptData)
    (h : r1.Value = r2.Value) :
    ((buildDatasourceFormatConfig (withFormatChoice o r1) m).1.1.isOk =
      (buildDatasourceFormatConfig (withFormatChoice o r2) m).1.1.isOk) ∧
    ((buildDatasourceFormatConfig (withFormatChoice o r1) m).1.2.DatasourceFormatConfig =
      (buildDatasourceFormatConfig (withFormatChoice o r2) m).1.2.DatasourceFormatConfig) ∧
    ((buildDatasourceFormatConfig (withFormatChoice o r1) m).2 =
      (buildDatasourceFormatConfig (withFormatChoice o r2) m).2) := by
  unfold buildDatasourceFormatConfig
  simp only [withFormatChoice_select, NewCSV_withFormatChoice]
  try dsimp only []
  rw [h]
  split_ifs with h1 h2 h3
  · exact ⟨rfl, rfl, rfl⟩
  · rcases hN : NewCSVFilesFormatConfigFromPrompts o with ⟨res, tr⟩
    rcases res with e | cfg <;> simp [hN]
  · exact ⟨rfl, rfl, rfl⟩
  · exact ⟨rfl, rfl, rfl⟩

/-- C3 witness: two distinct options sharing the CSV machine value take
the same branch of the format-selection step. -/
theorem C3_witness :
    (CommaSeparatedValuesFilesSelector.Value =
      ({ Name := "Other CSV", Value := DataformatIDCSVFiles,
         Description := "" } : selectPromptData).Value) ∧
    (((buildDatasourceFormatConfig
        (withFormatChoice happyPromptOracle CommaSeparatedValuesFilesSelector)
        zeroIngestManifest).1.1.isOk =
      (buildDatasourceFormatConfig
        (withFormatChoice happyPromptOracle
          { Name := "Other CSV", Value := DataformatIDCSVFiles, Description := "" })
        zeroIngestManifest).1.1.isOk) ∧
    ((buildDatasourceFormatConfig
        (withFormatChoice happyPromptOracle CommaSeparatedValuesFilesSelector)
        zeroIngestManifest).1.2.DatasourceFormatConfig =
      (buildDatasourceFormatConfig
        (withFormatChoice happyPromptOracle
          { Name := "Other CSV", Value := DataformatIDCSVFiles, Description := "" })
        zeroIngestManifest).1.2.DatasourceFormatConfig) ∧
    ((buildDatasourceFormatConfig
        (withFormatChoice happyPromptOracle CommaSeparatedValuesFilesSelector)
        zeroIngestManifest).2 =
      (buildDatasourceFormatConfig
        (withFormatChoice happyPromptOracle
          { Name := "Other CSV", Value := DataformatIDCSVFiles, Description := "" })
        zeroIngestManifest).2)) :=
  ⟨rfl, C3_theorem happyPromptOracle zeroIngestManifest _ _ rfl⟩

/-- C3 counterexample to the claim as stated: an option with the Local
Directory machine value but a different name takes a different branch of
the location-config dispatch than `LocalDirectorySelector` itself (the
Go `switch` there compares the entire struct): the former falls through
to the default branch's "not supported" error, the latter hits the
"local directories not yet supported" branch. -/
theorem C3_counterexample :
    (({ Name := "X", Value := DatasourceIDLocalDirectory,
        Description := "" } : selectPromptData).Value = LocalDirectorySelector.Value) ∧
    ((buildDatasourceLocationConfigForSelectedLocation happyPromptOracle
        LocalDirectorySelector).1 = .error "local directories not yet supported") ∧
    ((buildDatasourceLocationConfigForSelectedLocation happyPromptOracle
        { Name := "X", Value := DatasourceIDLocalDirectory, Description := "" }).1 =
      .error "datasource location \x7bX local_directory \x7d not supported") := by
  refine ⟨rfl, rfl, ?_⟩
  rfl

/-- C4: with the AWS S3 location selected, choosing the Individual Files
option makes the format-selection step fail with exactly the error
"individual binary files not yet supported"; and on every error return
of the step (prompt failure, unsupported feature, builder failure or
unrecognized value) the manifest's `selectedDatasourceType` and
`DatasourceFormatConfig` fields are left unchanged. -/
theorem C4_theorem :
    (∀ (o : PromptOracle) (m : IngestManifest),
      m.selectedDatasourceLocation = AWSS3Selector →
      (buildDatasourceFormatConfig (withFormatChoice o IndividualBinaryFilesSelector) m).1.1
        = .error "individual binary files not yet supported") ∧
    (∀ (o : PromptOracle) (m : IngestManifest) (err : GoError),
      (buildDatasourceFormatConfig o m).1.1 = .error err →
      (buildDatasourceFormatConfig o m).1.2.selectedDatasourceType
          = m.selectedDatasourceType ∧
      (buildDatasourceFormatConfig o m).1.2.DatasourceFormatConfig
          = m.DatasourceFormatConfig) := by
  constructor
  · intro o m _
    unfold buildDatasourceFormatConfig
    simp only [withFormatChoice_select]
    try dsimp only []
    rfl
  · intro o m err h
    rcases buildDatasourceFormatConfig_frame_or_ok o m with hf | hok
    · rw [hf]
      exact ⟨rfl, rfl⟩
    · rw [h] at hok
      exact Except.noConfusion hok

/-- C4 witness: the concrete AWS S3 manifest and the Individual Files
choice produce the unsupported-feature error and leave the manifest's
format fields at their zero values. -/
theorem C4_witness :
    ((buildDatasourceFormatConfig
        (withFormatChoice happyPromptOracle IndividualBinaryFilesSelector)
        { zeroIngestManifest with selectedDatasourceLocation := AWSS3Selector }).1.1
      = .error "individual binary files not yet supported") ∧
    ((buildDatasourceFormatConfig
        (withFormatChoice happyPromptOracle IndividualBinaryFilesSelector)
        { zeroIngestManifest with
            selectedDatasourceLocation := AWSS3Selector }).1.2.selectedDatasourceType
      = ({ zeroIngestManifest with
            selectedDatasourceLocation := AWSS3Selector } : IngestManifest).selectedDatasourceType ∧
     (buildDatasourceFormatConfig
        (withFormatChoice happyPromptOracle IndividualBinaryFilesSelector)
        { zeroIngestManifest with
            selectedDatasourceLocation := AWSS3Selector }).1.2.DatasourceFormatConfig
      = ({ zeroIngestManifest with
            selectedDatasourceLocation := AWSS3Selector } : IngestManifest).DatasourceFormatConfig) :=
  ⟨C4_theorem.1 happyPromptOracle _ rfl,
   C4_theorem.2 (withFormatChoice happyPromptOracle IndividualBinaryFilesSelector) _
     "individual binary files not yet supported" (C4_theorem.1 happyPromptOracle _ rfl)⟩

/-- A "no" answer at "Confirm and detect schema" makes the confirmation
step return exactly the user-cancellation error, with the manifest
untouched and the trace ending at that prompt. -/
theorem confirmDatasourceConfigs_no (o : PromptOracle) (m : IngestManifest)
    (hb : o.BoolPrompt "Confirm and detect schema" = .ok false) :
    confirmDatasourceConfigs o m =
      ((.error "user cancelled data source configurations", m),
       [Event.printLine "Data Source Configurations:", Event.printLine "",
        Event.printLine (renderYaml (marshalIngestManifest m)),
        Event.boolPromptCall "Confirm and detect schema"]) := by
  unfold confirmDatasourceConfigs
  simp [hb]

/-- C5: a "no" at the manifest-confirmation step always yields the fixed
cancellation error "user cancelled data source configurations", whose
message differs from every unsupported-feature message this file's steps
produce, and the whole run then exits with that error without a single
call into the sampling collaborator; a "no" at the schema-confirmation
step also yields a cancellation error, but it is the different error
"aborted finalizing schema", not the same error value (see the
counterexample). -/
theorem C5_theorem :
    (∀ (o : PromptOracle) (m : IngestManifest),
      o.BoolPrompt "Confirm and detect schema" = .ok false →
      (confirmDatasourceConfigs o m).1.1
        = .error "user cancelled data source configurations") ∧
    (("user cancelled data source configurations" : GoError)
        ≠ "individual binary files not yet supported" ∧
     ("user cancelled data source configurations" : GoError)
        ≠ "database tables not yet supported" ∧
     ("user cancelled data source configurations" : GoError)
        ≠ "local directories not yet supported") ∧
    (∀ (o : PromptOracle) (so : SamplerOracle) (yd : YamlTextDecoder)
        (m1 m2 : IngestManifest) (tr1 tr2 : List Event),
      buildDatasourceLocationConfig o zeroIngestManifest = ((.ok (), m1), tr1) →
      buildDatasourceFormatConfig o m1 = ((.ok (), m2), tr2) →
      o.BoolPrompt "Confirm and detect schema" = .ok false →
      (ingestCmdRun o so yd).1 = .exited "user cancelled data source configurations" ∧
      (ingestCmdRun o so yd).2.all (fun e => !e.isSamplerCall) = true) ∧
    (∀ (o : PromptOracle) (so : SamplerOracle) (yd : YamlTextDecoder) (m : IngestManifest)
        (s rec : SchemaField) (pv t : String),
      so.SamplerFactory m.DatasourceFormatConfig m.DatasourceLocationConfig = .ok () →
      so.SampleSchema = .ok s →
      so.PreviewSamples s = .ok pv →
      o.EditorPrompt (SchemaEditorTutorialBlurb ++ pv ++ renderYaml (marshalSchemaField s))
        "yaml" = .ok t →
      yd.UnmarshalSchemaField t = .ok rec →
      o.BoolPrompt "Confirm finalized schema" = .ok false →
      (buildDatarepoSchema o so yd m).1.1 = .error "aborted finalizing schema") := by
  refine ⟨?_, by decide, ?_, ?_⟩
  · intro o m hb
    rw [confirmDatasourceConfigs_no o m hb]
  · intro o so yd m1 m2 tr1 tr2 h1 h2 hb
    have t1 := buildDatasourceLocationConfig_no_sampler o zeroIngestManifest
    have t2 := buildDatasourceFormatConfig_no_sampler o m1
    rw [h1] at t1
    rw [h2] at t2
    unfold ingestCmdRun
    rw [h1]
    try dsimp only []
    rw [h2]
    try dsimp only []
    rw [confirmDatasourceConfigs_no o m2 hb]
    try dsimp only []
    refine ⟨rfl, ?_⟩
    rw [List.all_append, List.all_append, List.all_append, t1, t2]
    rfl
  · intro o so yd m s rec pv t hf hs hp he hu hb
    unfold buildDatarepoSchema
    try dsimp only []
    rw [hf]
    try dsimp only []
    rw [hs]
    try dsimp only []
    rw [hp]
    try dsimp only []
    rw [he]
    try dsimp only []
    rw [hu]
    try dsimp only []
    rw [hb]
    rfl

/-- C5 witness: concrete runs discharging each hypothesis: the "no" at
manifest confirmation exits the run with the cancellation error and a
sampler-free trace, and the "no" at schema confirmation produces the
"aborted finalizing schema" error. -/
theorem C5_witness :
    ((confirmDatasourceConfigs (answerNoAt "Confirm and detect schema") zeroIngestManifest).1.1
      = .error "user cancelled data source configurations") ∧
    ((ingestCmdRun (answerNoAt "Confirm and detect schema") happySamplerOracle happyDecoder).1
      = .exited "user cancelled data source configurations" ∧
     (ingestCmdRun (answerNoAt "Confirm and detect schema") happySamplerOracle
        happyDecoder).2.all (fun e => !e.isSamplerCall) = true) ∧
    ((buildDatarepoSchema (answerNoAt "Confirm finalized schema") happySamplerOracle
        happyDecoder zeroIngestManifest).1.1 = .error "aborted finalizing schema") :=
  ⟨C5_theorem.1 (answerNoAt "Confirm and detect schema") zeroIngestManifest rfl,
   C5_theorem.2.2.1 (answerNoAt "Confirm and detect schema") happySamplerOracle happyDecoder
     (buildDatasourceLocationConfig (answerNoAt "Confirm and detect schema")
        zeroIngestManifest).1.2
     (buildDatasourceFormatConfig (answerNoAt "Confirm and detect schema")
        (buildDatasourceLocationConfig (answerNoAt "Confirm and detect schema")
          zeroIngestManifest).1.2).1.2
     (buildDatasourceLocationConfig (answerNoAt "Confirm and detect schema")
        zeroIngestManifest).2
     (buildDatasourceFormatConfig (answerNoAt "Confirm and detect schema")
        (buildDatasourceLocationConfig (answerNoAt "Confirm and detect schema")
          zeroIngestManifest).1.2).2
     rfl rfl rfl,
   C5_theorem.2.2.2 (answerNoAt "Confirm finalized schema") happySamplerOracle happyDecoder
     zeroIngestManifest { name := "id", fieldType := "string" }
     { name := "id", fieldType := "string" } "| id |\n" "name: id\nfieldType: string"
     rfl rfl rfl rfl rfl rfl⟩

/-- C5 counterexample to "the same cancellation error type": the two
cancellation paths yield different error values — the manifest-step "no"
exits with "user cancelled data source configurations" while the
schema-step "no" exits with "aborted finalizing schema". -/
theorem C5_counterexample :
    ((ingestCmdRun (answerNoAt "Confirm and detect schema") happySamplerOracle happyDecoder).1
      = .exited "user cancelled data source configurations") ∧
    ((ingestCmdRun (answerNoAt "Confirm finalized schema") happySamplerOracle happyDecoder).1
      = .exited "aborted finalizing schema") ∧
    (("user cancelled data source configurations" : GoError)
      ≠ "aborted finalizing schema") := by
  refine ⟨rfl, rfl, by decide⟩

/-- C6: if the text returned from the schema editor fails to parse, the
schema step returns that parse error, the "Confirm finalized schema"
prompt is never shown, and exactly one editor session was opened (no
retry). -/
theorem C6_theorem (o : PromptOracle) (so : SamplerOracle) (yd : YamlTextDecoder)
    (m : IngestManifest) (s : SchemaField) (pv t : String) (e : GoError)
    (hf : so.SamplerFactory m.DatasourceFormatConfig m.DatasourceLocationConfig = .ok ())
    (hs : so.SampleSchema = .ok s)
    (hp : so.PreviewSamples s = .ok pv)
    (he : o.EditorPrompt (SchemaEditorTutorialBlurb ++ pv ++ renderYaml (marshalSchemaField s))
      "yaml" = .ok t)
    (hu : yd.UnmarshalSchemaField t = .error e) :
    (buildDatarepoSchema o so yd m).1.1 = .error e ∧
    (buildDatarepoSchema o so yd m).2.all
      (fun ev => !(ev.isBoolPromptFor "Confirm finalized schema")) = true ∧
    (buildDatarepoSchema o so yd m).2.countP (fun ev => ev.isEditorCall) = 1 := by
  unfold buildDatarepoSchema
  try dsimp only []
  rw [hf]
  try dsimp only []
  rw [hs]
  try dsimp only []
  rw [hp]
  try dsimp only []
  rw [he]
  try dsimp only []
  rw [hu]
  exact ⟨rfl, rfl, rfl⟩

/-- C6 witness: the happy-path oracles with a decoder that rejects every
buffer give the parse error, no final confirmation prompt, and one
editor call. -/
theorem C6_witness :
    (buildDatarepoSchema happyPromptOracle happySamplerOracle failingDecoder
        zeroIngestManifest).1.1 = .error "yaml: could not find expected directive name" ∧
    (buildDatarepoSchema happyPromptOracle happySamplerOracle failingDecoder
        zeroIngestManifest).2.all
      (fun ev => !(ev.isBoolPromptFor "Confirm finalized schema")) = true ∧
    (buildDatarepoSchema happyPromptOracle happySamplerOracle failingDecoder
        zeroIngestManifest).2.countP (fun ev => ev.isEditorCall) = 1 :=
  C6_theorem happyPromptOracle happySamplerOracle failingDecoder zeroIngestManifest
    { name := "id", fieldType := "string" } "| id |\n" "name: id\nfieldType: string"
    "yaml: could not find expected directive name" rfl rfl rfl rfl rfl

/-- C7: for every location value present in the Choice Compatibility
Table, the format-selection step invokes the select prompt with exactly
the table's configured option list for that value, in its configured
order. -/
theorem C7_theorem (o : PromptOracle) (m : IngestManifest) (opts : List selectPromptData)
    (h : allowedSelectorsTable.lookup m.selectedDatasourceLocation.Value = some opts) :
    (buildDatasourceFormatConfig o m).2.head? =
      some (.selectPromptCall "Data format" "Choose how your data is laid out." opts) := by
  have ht := buildDatasourceFormatConfig_trace_head o m
  rw [ht]
  unfold allowedSelectors
  rw [h]
  rfl

/-- C7 witness: with the AWS S3 location the prompt receives exactly the
configured pair CSV Files then Individual Files. -/
theorem C7_witness :
    allowedSelectorsTable.lookup
      ({ zeroIngestManifest with
          selectedDatasourceLocation := AWSS3Selector } : IngestManifest).selectedDatasourceLocation.Value
      = some [CommaSeparatedValuesFilesSelector, IndividualBinaryFilesSelector] ∧
    (buildDatasourceFormatConfig happyPromptOracle
        { zeroIngestManifest with selectedDatasourceLocation := AWSS3Selector }).2.head? =
      some (.selectPromptCall "Data format" "Choose how your data is laid out."
        [CommaSeparatedValuesFilesSelector, IndividualBinaryFilesSelector]) :=
  ⟨rfl, C7_theorem happyPromptOracle _ _ rfl⟩

/-- An oracle whose select prompt always fails (a prompt-mechanism
failure at the very first step). -/
def failingSelectOracle : PromptOracle :=
  { happyPromptOracle with SelectPrompt := fun _ _ _ => .error "prompt mechanism failed" }

/-- C8: the driver runs choose-location, choose-format, confirm and
sample-and-edit-schema strictly in that order: whichever step errors
first terminates the run with that error unchanged, the trace contains
no event of any later step, and only if all four steps succeed does the
run complete; each conjunct fixes one prefix of successful steps. -/
theorem C8_theorem :
    (∀ (o : PromptOracle) (so : SamplerOracle) (yd : YamlTextDecoder)
        (e : GoError) (m1 : IngestManifest) (tr1 : List Event),
      buildDatasourceLocationConfig o zeroIngestManifest = ((.error e, m1), tr1) →
      ingestCmdRun o so yd = (.exited e, [Event.printLine ""] ++ tr1)) ∧
    (∀ (o : PromptOracle) (so : SamplerOracle) (yd : YamlTextDecoder)
        (m1 : IngestManifest) (tr1 : List Event) (e : GoError)
        (m2 : IngestManifest) (tr2 : List Event),
      buildDatasourceLocationConfig o zeroIngestManifest = ((.ok (), m1), tr1) →
      buildDatasourceFormatConfig o m1 = ((.error e, m2), tr2) →
      ingestCmdRun o so yd = (.exited e, [Event.printLine ""] ++ tr1 ++ tr2)) ∧
    (∀ (o : PromptOracle) (so : SamplerOracle) (yd : YamlTextDecoder)
        (m1 : IngestManifest) (tr1 : List Event) (m2 : IngestManifest) (tr2 : List Event)
        (e : GoError) (m3 : IngestManifest) (tr3 : List Event),
      buildDatasourceLocationConfig o zeroIngestManifest = ((.ok (), m1), tr1) →
      buildDatasourceFormatConfig o m1 = ((.ok (), m2), tr2) →
      confirmDatasourceConfigs o m2 = ((.error e, m3), tr3) →
      ingestCmdRun o so yd = (.exited e, [Event.printLine ""] ++ tr1 ++ tr2 ++ tr3)) ∧
    (∀ (o : PromptOracle) (so : SamplerOracle) (yd : YamlTextDecoder)
        (m1 : IngestManifest) (tr1 : List Event) (m2 : IngestManifest) (tr2 : List Event)
        (m3 : IngestManifest) (tr3 : List Event) (e : GoError)
        (m4 : IngestManifest) (tr4 : List Event),
      buildDatasourceLocationConfig o zeroIngestManifest = ((.ok (), m1), tr1) →
      buildDatasourceFormatConfig o m1 = ((.ok (), m2), tr2) →
      confirmDatasourceConfigs o m2 = ((.ok (), m3), tr3) →
      buildDatarepoSchema o so yd m3 = ((.error e, m4), tr4) →
      ingestCmdRun o so yd = (.exited e, [Event.printLine ""] ++ tr1 ++ tr2 ++ tr3 ++ tr4)) ∧
    (∀ (o : PromptOracle) (so : SamplerOracle) (yd : YamlTextDecoder)
        (m1 : IngestManifest) (tr1 : List Event) (m2 : IngestManifest) (tr2 : List Event)
        (m3 : IngestManifest) (tr3 : List Event) (m4 : IngestManifest) (tr4 : List Event),
      buildDatasourceLocationConfig o zeroIngestManifest = ((.ok (), m1), tr1) →
      buildDatasourceFormatConfig o m1 = ((.ok (), m2), tr2) →
      confirmDatasourceConfigs o m2 = ((.ok (), m3), tr3) →
      buildDatarepoSchema o so yd m3 = ((.ok (), m4), tr4) →
      ingestCmdRun o so yd
        = (.completed m4, [Event.printLine ""] ++ tr1 ++ tr2 ++ tr3 ++ tr4)) := by
  refine ⟨?_, ?_, ?_, ?_, ?_⟩
  · intro o so yd e m1 tr1 h1
    unfold ingestCmdRun
    rw [h1]
  · intro o so yd m1 tr1 e m2 tr2 h1 h2
    unfold ingestCmdRun
    rw [h1]
    try dsimp only []
    rw [h2]
  · intro o so yd m1 tr1 m2 tr2 e m3 tr3 h1 h2 h3
    unfold ingestCmdRun
    rw [h1]
    try dsimp only []
    rw [h2]
    try dsimp only []
    rw [h3]
  · intro o so yd m1 tr1 m2 tr2 m3 tr3 e m4 tr4 h1 h2 h3 h4
    unfold ingestCmdRun
    rw [h1]
    try dsimp only []
    rw [h2]
    try dsimp only []
    rw [h3]
    try dsimp only []
    rw [h4]
  · intro o so yd m1 tr1 m2 tr2 m3 tr3 m4 tr4 h1 h2 h3 h4
    unfold ingestCmdRun
    rw [h1]
    try dsimp only []
    rw [h2]
    try dsimp only []
    rw [h3]
    try dsimp only []
    rw [h4]

/-- C8 witness: a first-step prompt failure terminates the run with that
error after only the location prompt event, and the happy path runs all
four steps to completion. -/
theorem C8_witness :
    (ingestCmdRun failingSelectOracle happySamplerOracle happyDecoder
      = (.exited "prompt mechanism failed",
         [Event.printLine ""] ++
           [Event.selectPromptCall "Data Source" "Specify the source for importing data from."
             locationSelectors])) ∧
    (ingestCmdRun happyPromptOracle happySamplerOracle happyDecoder
      = (.completed
          (buildDatarepoSchema happyPromptOracle happySamplerOracle happyDecoder
            (confirmDatasourceConfigs happyPromptOracle
              (buildDatasourceFormatConfig happyPromptOracle
                (buildDatasourceLocationConfig happyPromptOracle zeroIngestManifest).1.2).1.2).1.2).1.2,
         [Event.printLine ""] ++
           (buildDatasourceLocationConfig happyPromptOracle zeroIngestManifest).2 ++
           (buildDatasourceFormatConfig happyPromptOracle
             (buildDatasourceLocationConfig happyPromptOracle zeroIngestManifest).1.2).2 ++
           (confirmDatasourceConfigs happyPromptOracle
             (buildDatasourceFormatConfig happyPromptOracle
               (buildDatasourceLocationConfig happyPromptOracle zeroIngestManifest).1.2).1.2).2 ++
           (buildDatarepoSchema happyPromptOracle happySamplerOracle happyDecoder
             (confirmDatasourceConfigs happyPromptOracle
               (buildDatasourceFormatConfig happyPromptOracle
                 (buildDatasourceLocationConfig happyPromptOracle
                   zeroIngestManifest).1.2).1.2).1.2).2)) :=
  ⟨C8_theorem.1 failingSelectOracle happySamplerOracle happyDecoder
      "prompt mechanism failed" zeroIngestManifest
      [Event.selectPromptCall "Data Source" "Specify the source for importing data from."
        locationSelectors] rfl,
   C8_theorem.2.2.2.2 happyPromptOracle happySamplerOracle happyDecoder
      (buildDatasourceLocationConfig happyPromptOracle zeroIngestManifest).1.2
      (buildDatasourceLocationConfig happyPromptOracle zeroIngestManifest).2
      (buildDatasourceFormatConfig happyPromptOracle
        (buildDatasourceLocationConfig happyPromptOracle zeroIngestManifest).1.2).1.2
      (buildDatasourceFormatConfig happyPromptOracle
        (buildDatasourceLocationConfig happyPromptOracle zeroIngestManifest).1.2).2
      (confirmDatasourceConfigs happyPromptOracle
        (buildDatasourceFormatConfig happyPromptOracle
          (buildDatasourceLocationConfig happyPromptOracle zeroIngestManifest).1.2).1.2).1.2
      (confirmDatasourceConfigs happyPromptOracle
        (buildDatasourceFormatConfig happyPromptOracle
          (buildDatasourceLocationConfig happyPromptOracle zeroIngestManifest).1.2).1.2).2
      (buildDatarepoSchema happyPromptOracle happySamplerOracle happyDecoder
        (confirmDatasourceConfigs happyPromptOracle
          (buildDatasourceFormatConfig happyPromptOracle
            (buildDatasourceLocationConfig happyPromptOracle zeroIngestManifest).1.2).1.2).1.2).1.2
      (buildDatarepoSchema happyPromptOracle happySamplerOracle happyDecoder
        (confirmDatasourceConfigs happyPromptOracle
          (buildDatasourceFormatConfig happyPromptOracle
            (buildDatasourceLocationConfig happyPromptOracle zeroIngestManifest).1.2).1.2).1.2).2
      rfl rfl rfl rfl⟩

/-- An oracle that chooses the Local Directory option at the location
prompt and otherwise behaves like the happy-path oracle. -/
def chooseLocalDirOracle : PromptOracle :=
  { happyPromptOracle with
    SelectPrompt := fun title help opts =>
      if title = "Data Source" then .ok LocalDirectorySelector
      else happyPromptOracle.SelectPrompt title help opts }

/-- C9: choosing the Local Directory option at the location-selection
step always fails the step with exactly the error "local directories not
yet supported", and on every error return of the step the manifest's
`selectedDatasourceLocation` and `DatasourceLocationConfig` fields are
left unchanged. -/
theorem C9_theorem :
    (∀ (o : PromptOracle) (m : IngestManifest),
      o.SelectPrompt "Data Source" "Specify the source for importing data from."
        locationSelectors = .ok LocalDirectorySelector →
      (buildDatasourceLocationConfig o m).1.1 = .error "local directories not yet supported") ∧
    (∀ (o : PromptOracle) (m : IngestManifest) (err : GoError),
      (buildDatasourceLocationConfig o m).1.1 = .error err →
      (buildDatasourceLocationConfig o m).1.2.selectedDatasourceLocation
          = m.selectedDatasourceLocation ∧
      (buildDatasourceLocationConfig o m).1.2.DatasourceLocationConfig
          = m.DatasourceLocationConfig) := by
  constructor
  · intro o m h
    unfold buildDatasourceLocationConfig
    try dsimp only []
    rw [h]
    rfl
  · intro o m err h
    rcases buildDatasourceLocationConfig_frame_or_ok o m with hf | hok
    · rw [hf]
      exact ⟨rfl, rfl⟩
    · rw [h] at hok
      exact Except.noConfusion hok

/-- C9 witness: the concrete Local Directory choice fails the step with
that error and leaves the zero manifest's location fields at their zero
values. -/
theorem C9_witness :
    ((buildDatasourceLocationConfig chooseLocalDirOracle zeroIngestManifest).1.1
      = .error "local directories not yet supported") ∧
    ((buildDatasourceLocationConfig chooseLocalDirOracle
        zeroIngestManifest).1.2.selectedDatasourceLocation
      = zeroIngestManifest.selectedDatasourceLocation ∧
     (buildDatasourceLocationConfig chooseLocalDirOracle
        zeroIngestManifest).1.2.DatasourceLocationConfig
      = zeroIngestManifest.DatasourceLocationConfig) :=
  ⟨C9_theorem.1 chooseLocalDirOracle zeroIngestManifest rfl,
   C9_theorem.2 chooseLocalDirOracle zeroIngestManifest
     "local directories not yet supported"
     (C9_theorem.1 chooseLocalDirOracle zeroIngestManifest rfl)⟩

/-- The observable part of a decode result: its error, if any (`none` on
a successful parse, whatever the parsed record). -/
def decodeOutcome : Except GoError SchemaField → Option GoError
  | .ok _ => none
  | .error e => some e

/-- A second happy decoder that parses every buffer to a different
record than `happyDecoder` does. -/
def happyDecoderTwo : YamlTextDecoder where
  UnmarshalSchemaField := fun _ => .ok { name := "other", fieldType := "uri/s3" }

/-- C10: the schema-building step carries no schema value out of its
success path: it never writes the manifest, and its entire observable
behaviour (result, manifest, collaborator trace) is unchanged when the
decoder is replaced by any decoder with the same error behaviour but
arbitrarily different parsed records — the parsed record is used only
for the success of the parse. -/
theorem C10_theorem :
    (∀ (o : PromptOracle) (so : SamplerOracle) (yd : YamlTextDecoder) (m : IngestManifest),
      (buildDatarepoSchema o so yd m).1.2 = m) ∧
    (∀ (o : PromptOracle) (so : SamplerOracle) (m : IngestManifest)
        (yd1 yd2 : YamlTextDecoder),
      (∀ t, decodeOutcome (yd1.UnmarshalSchemaField t)
          = decodeOutcome (yd2.UnmarshalSchemaField t)) →
      buildDatarepoSchema o so yd1 m = buildDatarepoSchema o so yd2 m) := by
  constructor
  · intro o so yd m
    unfold buildDatarepoSchema
    try dsimp only []
    repeat' (first | rfl | split)
  · intro o so m yd1 yd2 h
    unfold buildDatarepoSchema
    try dsimp only []
    cases hf : so.SamplerFactory m.DatasourceFormatConfig m.DatasourceLocationConfig with
    | error e => rfl
    | ok u =>
      try dsimp only []
      cases hs : so.SampleSchema with
      | error e => rfl
      | ok s =>
        try dsimp only []
        cases hp : so.PreviewSamples s with
        | error e => rfl
        | ok pv =>
          try dsimp only []
          cases he : o.EditorPrompt
              (SchemaEditorTutorialBlurb ++ pv ++ renderYaml (marshalSchemaField s)) "yaml" with
          | error e => rfl
          | ok t =>
            try dsimp only []
            have h' := h t
            cases h1 : yd1.UnmarshalSchemaField t with
            | error e1 =>
              cases h2 : yd2.UnmarshalSchemaField t with
              | error e2 =>
                rw [h1, h2] at h'
                simp only [decodeOutcome, Option.some.injEq] at h'
                rw [h']
              | ok r2 =>
                rw [h1, h2] at h'
                simp [decodeOutcome] at h'
            | ok r1 =>
              cases h2 : yd2.UnmarshalSchemaField t with
              | error e2 =>
                rw [h1, h2] at h'
                simp [decodeOutcome] at h'
              | ok r2 => rfl

/-- C10 witness: replacing the decoder by one that parses to a different
record changes nothing about the step's outcome, and the manifest is
returned unchanged. -/
theorem C10_witness :
    ((buildDatarepoSchema happyPromptOracle happySamplerOracle happyDecoder
        zeroIngestManifest).1.2 = zeroIngestManifest) ∧
    (buildDatarepoSchema happyPromptOracle happySamplerOracle happyDecoder zeroIngestManifest
      = buildDatarepoSchema happyPromptOracle happySamplerOracle happyDecoderTwo
          zeroIngestManifest) :=
  ⟨C10_theorem.1 happyPromptOracle happySamplerOracle happyDecoder zeroIngestManifest,
   C10_theorem.2 happyPromptOracle happySamplerOracle zeroIngestManifest
     happyDecoder happyDecoderTwo (fun _ => rfl)⟩
